import Mathlib

/-!
Verification of the solar-production forecasting engine of
`ha-growatt-battery-discharge-guard` (`custom_components/battery_management/sensor.py`).

The engine part (`calculate_energy_forecast`) is embedded with instants
measured in integer minutes (the engine only ever compares instants and
advances them by 5-minute steps, so integer minutes are a faithful time
axis), calendar dates as integers (`dateOf` models `datetime.date()`), and
energies/powers as exact rationals.  The three collaborator functions the
engine calls are abstracted into a `Collab` record.  Exceptions are modelled
with `Except PyErr`; the top-level `try/except` of the source becomes a
`match` on the `Except` value.

The numerical leaf functions (`calculate_solar_position`,
`calculate_panel_irradiance`) are embedded over the reals further below.
-/

/-- Errors a Python expression may raise.  `typeError` models a `TypeError`
such as calling a function with a wrong number of arguments. -/
inductive PyErr where
  | typeError
  | valueError
deriving DecidableEq

/-- A sunrise/sunset pair as returned by `get_sun_times` (instants in
minutes). -/
structure SunTimes where
  sunrise : ℤ
  sunset : ℤ
deriving DecidableEq

/-- The dict returned by `calculate_solar_position` (degrees). -/
structure SolarPos where
  elevation : ℚ
  azimuth : ℚ
deriving DecidableEq

/-- One 5-minute entry appended to a forecast series
(sensor.py lines 231-240 and 295-304). -/
structure ForecastInterval where
  time : ℤ
  solar_elevation : ℚ
  solar_azimuth : ℚ
  irradiance : ℚ
  power_kw : ℚ
  energy_5min_kwh : ℚ
deriving DecidableEq

/-- The dict returned by `calculate_energy_forecast`.  The four core keys are
plain fields; the four keys that only the non-degraded return sites add
(sensor.py lines 255-258 and 314-317) are `Option` fields, `none` meaning the
key is absent from the returned dict. -/
structure ForecastResult where
  total_energy : ℚ
  forecast : List ForecastInterval
  full_day_forecast : List ForecastInterval
  total_daily_energy : ℚ
  sunrise_time : Option ℤ := none
  sunset_time : Option ℤ := none
  forecast_start : Option ℤ := none
  forecast_day : Option ℤ := none
deriving DecidableEq

/-- The zero/empty result built at sensor.py lines 164-170 and 322-327. -/
def emptyResult : ForecastResult :=
  { total_energy := 0
    forecast := []
    full_day_forecast := []
    total_daily_energy := 0 }

/-- Python `round(x, n)` (round-half-to-even), idealized over exact rationals. -/
def roundTo (n : ℕ) (x : ℚ) : ℚ :=
  let m : ℚ := (10 : ℚ) ^ n
  let y := x * m
  let f : ℤ := ⌊y⌋
  let r := y - f
  let k : ℤ :=
    if r < 1 / 2 then f
    else if 1 / 2 < r then f + 1
    else if f % 2 = 0 then f else f + 1
  (k : ℚ) / m

/-- `panel_efficiency = 0.20` (sensor.py line 217). -/
def panel_efficiency : ℚ := 20 / 100

/-- `system_efficiency = 0.90` (sensor.py line 218). -/
def system_efficiency : ℚ := 90 / 100

/-- Per-step electrical power in kW as computed by the engine
(sensor.py lines 221-226): `(irradiance / 1000) * pv_max_power *
panel_efficiency * system_efficiency`.  Note: no cap at `pv_max_power`. -/
def power_kw (pv_max_power irradiance : ℚ) : ℚ :=
  irradiance / 1000 * pv_max_power * panel_efficiency * system_efficiency

/-- Energy produced in one 5-minute step (sensor.py lines 229 and 293). -/
def energy_5min (p : ℚ) : ℚ :=
  p * (5 / 60)

/-- The power conversion as the specification words it:
`rated_power_kw × min(1, irradiance / 1000)`.  Stated for comparison with
`power_kw` (the formula the engine in sensor.py actually computes) and
`power_kw_test` (the formula in forecast_test_fixed.py). -/
def power_spec (rated_power_kw irradiance : ℚ) : ℚ :=
  rated_power_kw * min 1 (irradiance / 1000)

/-- Per-step power as computed by the standalone test script
forecast_test_fixed.py lines 207-208:
`power_kw = PV_MAX_POWER * (irradiance / 1000.0)` followed by
`power_kw = max(0, min(power_kw, PV_MAX_POWER))`. -/
def power_kw_test (pv_max_power irradiance : ℚ) : ℚ :=
  max 0 (min (pv_max_power * (irradiance / 1000)) pv_max_power)

/-- `datetime.date()` for an instant measured in minutes: the calendar day
number containing it (floor division by the 1440 minutes of a day). -/
def dateOf (t : ℤ) : ℤ :=
  Int.fdiv t 1440

/-- The collaborators `calculate_energy_forecast` calls, abstracted over the
location and panel-configuration arguments it merely passes through:
`sunTimes d` models `get_sun_times(latitude, longitude, timezone, d)` with
`none` standing for the empty dict `{}` (or a dict missing `sunrise`/`sunset`);
`solarPos t` models `calculate_solar_position(latitude, longitude, t)`;
`panelIrr p` models `calculate_panel_irradiance(p.elevation, p.azimuth,
panel_tilt, panel_orientation)`.  Each is allowed to fail so that the
engine-level exception handling can be stated for every collaborator behavior;
the concrete functions in the source catch their own exceptions and always
succeed. -/
structure Collab where
  sunTimes : ℤ → Except PyErr (Option SunTimes)
  solarPos : ℤ → Except PyErr SolarPos
  panelIrr : SolarPos → Except PyErr ℚ

/-- The interval record appended to a series (same fields at sensor.py
lines 231-240 and 295-304). -/
def mkInterval (t : ℤ) (pos : SolarPos) (irr p e : ℚ) : ForecastInterval :=
  { time := t
    solar_elevation := roundTo 2 pos.elevation
    solar_azimuth := roundTo 2 pos.azimuth
    irradiance := roundTo 2 irr
    power_kw := roundTo 3 p
    energy_5min_kwh := roundTo 4 e }

/-- Number of iterations of a `while current < stop: ...; current += 5` loop:
the ceiling of `(stop - cur) / 5`, clamped at 0. -/
def numSteps (cur stop : ℤ) : ℕ :=
  (stop - cur + 4).toNat / 5

/-- The body of the full-day loop (sensor.py lines 199-243), iterated a given
number of times.  An interval is recorded, and its energy added, only when the
solar elevation is positive (the duplicated guard at source lines 204-206 is a
nested repetition of the same condition and is translated as one guard); the
current time advances by 5 minutes on every iteration.  The running total is
accumulated by the recursion on the right; over `ℚ` this equals the source's
left-to-right accumulation. -/
def fullDayGo (c : Collab) (pv : ℚ) : ℕ → ℤ → Except PyErr (List ForecastInterval × ℚ)
  | 0, _ => pure ([], 0)
  | n + 1, cur => do
    let pos ← c.solarPos cur
    if 0 < pos.elevation then do
      let irr ← c.panelIrr pos
      let p := power_kw pv irr
      let e := energy_5min p
      let rest ← fullDayGo c pv n (cur + 5)
      pure (mkInterval cur pos irr p e :: rest.1, e + rest.2)
    else
      fullDayGo c pv n (cur + 5)

/-- The full-day loop: `while current_time_full < sunset_time` starting at
`sunrise_time` (sensor.py lines 195-243). -/
def fullDayLoop (c : Collab) (pv : ℚ) (sunrise sunset : ℤ) :
    Except PyErr (List ForecastInterval × ℚ) :=
  fullDayGo c pv (numSteps sunrise sunset) sunrise

/-- The body of the remaining-forecast loop (sensor.py lines 267-307), iterated
a given number of times.  Unlike the full-day loop there is no elevation guard:
every visited step is recorded. -/
def remainingGo (c : Collab) (pv : ℚ) : ℕ → ℤ → Except PyErr (List ForecastInterval × ℚ)
  | 0, _ => pure ([], 0)
  | n + 1, cur => do
    let pos ← c.solarPos cur
    let irr ← c.panelIrr pos
    let p := power_kw pv irr
    let e := energy_5min p
    let rest ← remainingGo c pv n (cur + 5)
    pure (mkInterval cur pos irr p e :: rest.1, e + rest.2)

/-- The remaining-forecast loop: `while current_time < sunset_time` starting at
`start_time` (sensor.py lines 261-307). -/
def remainingLoop (c : Collab) (pv : ℚ) (start sunset : ℤ) :
    Except PyErr (List ForecastInterval × ℚ) :=
  remainingGo c pv (numSteps start sunset) start

/-- Shallow embedding of the body of `calculate_energy_forecast`
(sensor.py lines 157-318), i.e. everything inside the top-level `try`.
The bind marked as line 246 models
`get_sun_times(latitude, longitude, start_time.date())`: that call passes
3 arguments to a function with 4 required positional parameters, so Python
raises `TypeError` before any sun-time lookup happens.  The code after it
(lines 249-318) is consequently dead; it is still translated in full. -/
def calculate_energy_forecast_core (c : Collab) (pv : ℚ) (start_time : ℤ) :
    Except PyErr ForecastResult := do
  let today := dateOf start_time
  let sun_times ← c.sunTimes today
  match sun_times with
  | none =>
    pure emptyResult
  | some st => do
    let sunrise0 := st.sunrise
    let sunset0 := st.sunset
    let roll ←
      if sunset0 ≤ start_time then do
        let tomorrow_sun_times ← c.sunTimes (today + 1)
        match tomorrow_sun_times with
        | some t2 => pure (t2.sunrise, t2.sunset, today + 1)
        | none => pure (sunrise0, sunset0, today)
      else
        pure (sunrise0, sunset0, today)
    let sunrise_time := roll.1
    let sunset_time := roll.2.1
    let forecast_day := roll.2.2
    let fd ← fullDayLoop c pv sunrise_time sunset_time
    let full_day_forecast := fd.1
    let total_daily_energy := fd.2
    let original_times ← (Except.error PyErr.typeError : Except PyErr (Option SunTimes))
    let original_sunset :=
      match original_times with
      | some o => o.sunset
      | none => sunset_time
    if original_sunset ≤ start_time then
      pure { total_energy := 0
             forecast := []
             full_day_forecast := full_day_forecast
             total_daily_energy := roundTo 3 total_daily_energy
             sunrise_time := some sunrise_time
             sunset_time := some sunset_time
             forecast_start := some start_time
             forecast_day := some forecast_day }
    else do
      let rem ← remainingLoop c pv start_time sunset_time
      pure { total_energy := roundTo 3 rem.2
             forecast := rem.1
             full_day_forecast := full_day_forecast
             total_daily_energy := roundTo 3 total_daily_energy
             sunrise_time := some sunrise_time
             sunset_time := some sunset_time
             forecast_start := some start_time
             forecast_day := some forecast_day }

/-- `calculate_energy_forecast` with its top-level exception handler
(sensor.py lines 320-327): any exception raised inside the body is caught and
turned into the zero/empty result. -/
def calculate_energy_forecast (c : Collab) (pv : ℚ) (start_time : ℤ) : ForecastResult :=
  match calculate_energy_forecast_core c pv start_time with
  | .ok r => r
  | .error _ => emptyResult

/-- Reduction of a successful `Except` bind. -/
theorem except_bind_ok {α β ε : Type} (a : α) (f : α → Except ε β) :
    (Except.ok a : Except ε α) >>= f = f a := rfl

/-- Reduction of a failed `Except` bind. -/
theorem except_bind_error {α β ε : Type} (e : ε) (f : α → Except ε β) :
    (Except.error e : Except ε α) >>= f = Except.error e := rfl

/-- `pure` on `Except` is `Except.ok`. -/
theorem except_pure {α ε : Type} (a : α) :
    (pure a : Except ε α) = Except.ok a := rfl

/-- `Functor.map` on `Except` applied to an error. -/
theorem except_map_error {α β ε : Type} (f : α → β) (e : ε) :
    (f <$> (Except.error e : Except ε α)) = Except.error e := rfl

/-- Fidelity of the step-counted loop: `fullDayLoop` satisfies the defining
equation of the source's `while current_time_full < sunset_time` loop. -/
theorem fullDayLoop_unfold (c : Collab) (pv : ℚ) (sunset cur : ℤ) :
    fullDayLoop c pv cur sunset =
      if cur < sunset then do
        let pos ← c.solarPos cur
        if 0 < pos.elevation then do
          let irr ← c.panelIrr pos
          let p := power_kw pv irr
          let e := energy_5min p
          let rest ← fullDayLoop c pv (cur + 5) sunset
          pure (mkInterval cur pos irr p e :: rest.1, e + rest.2)
        else
          fullDayLoop c pv (cur + 5) sunset
      else
        pure ([], 0) := by
  by_cases h : cur < sunset
  · have hstep : numSteps cur sunset = numSteps (cur + 5) sunset + 1 := by
      unfold numSteps
      omega
    rw [if_pos h]
    unfold fullDayLoop
    rw [hstep]
    rfl
  · have hz : numSteps cur sunset = 0 := by
      unfold numSteps
      omega
    rw [if_neg h]
    unfold fullDayLoop
    rw [hz]
    rfl

/-- Fidelity of the step-counted loop: `remainingLoop` satisfies the defining
equation of the source's `while current_time < sunset_time` loop. -/
theorem remainingLoop_unfold (c : Collab) (pv : ℚ) (sunset cur : ℤ) :
    remainingLoop c pv cur sunset =
      if cur < sunset then do
        let pos ← c.solarPos cur
        let irr ← c.panelIrr pos
        let p := power_kw pv irr
        let e := energy_5min p
        let rest ← remainingLoop c pv (cur + 5) sunset
        pure (mkInterval cur pos irr p e :: rest.1, e + rest.2)
      else
        pure ([], 0) := by
  by_cases h : cur < sunset
  · have hstep : numSteps cur sunset = numSteps (cur + 5) sunset + 1 := by
      unfold numSteps
      omega
    rw [if_pos h]
    unfold remainingLoop
    rw [hstep]
    rfl
  · have hz : numSteps cur sunset = 0 := by
      unfold numSteps
      omega
    rw [if_neg h]
    unfold remainingLoop
    rw [hz]
    rfl

/-- Every call of `calculate_energy_forecast` returns the zero/empty result:
on every path on which sun times resolve, the engine reaches the 3-argument
`get_sun_times` call at sensor.py line 246, whose `TypeError` is caught by the
top-level handler; when they do not resolve, the zero/empty result is returned
directly. -/
theorem engine_always_empty (c : Collab) (pv : ℚ) (start : ℤ) :
    calculate_energy_forecast c pv start = emptyResult := by
  unfold calculate_energy_forecast calculate_energy_forecast_core
  cases h1 : c.sunTimes (dateOf start) with
  | error e => simp [h1, except_bind_error]
  | ok o =>
    cases o with
    | none => simp [h1, except_bind_ok, except_pure]
    | some st =>
      simp only [h1, except_bind_ok]
      by_cases hroll : st.sunset ≤ start
      · rw [if_pos hroll]
        cases h2 : c.sunTimes (dateOf start + 1) with
        | error e => simp [h2, except_bind_error]
        | ok o2 =>
          cases o2 with
          | none =>
            simp only [h2, except_bind_ok, except_pure]
            cases h3 : fullDayLoop c pv st.sunrise st.sunset with
            | error e => simp [h3, except_bind_error, except_bind_ok, except_pure]
            | ok fd => simp [h3, except_bind_error, except_bind_ok, except_pure]
          | some t2 =>
            simp only [h2, except_bind_ok, except_pure]
            cases h3 : fullDayLoop c pv t2.sunrise t2.sunset with
            | error e => simp [h3, except_bind_error, except_bind_ok, except_pure]
            | ok fd => simp [h3, except_bind_error, except_bind_ok, except_pure]
      · rw [if_neg hroll]
        cases h3 : fullDayLoop c pv st.sunrise st.sunset with
        | error e => simp [h3, except_bind_error, except_bind_ok, except_pure]
        | ok fd => simp [h3, except_bind_error, except_bind_ok, except_pure]

/-- A concrete sunrise/sunset pair: 08:00 and 16:00 of day 0 (in minutes). -/
def stubSunTimes : SunTimes :=
  { sunrise := 480, sunset := 960 }

/-- A concrete sunrise/sunset pair on day 1: 08:00 and 16:00 of the next day. -/
def stubSunTimesTomorrow : SunTimes :=
  { sunrise := 1920, sunset := 2400 }

/-- Collaborators that always resolve day-0 sun times and never fail. -/
def collabOk : Collab :=
  { sunTimes := fun _ => Except.ok (some stubSunTimes)
    solarPos := fun _ => Except.ok { elevation := 10, azimuth := 180 }
    panelIrr := fun _ => Except.ok 500 }

/-- Collaborators resolving sun times for day 0 and for every later day. -/
def collabPastSunset : Collab :=
  { sunTimes := fun d => if d = 0 then Except.ok (some stubSunTimes)
      else Except.ok (some stubSunTimesTomorrow)
    solarPos := fun _ => Except.ok { elevation := 45, azimuth := 180 }
    panelIrr := fun _ => Except.ok 600 }

/-- Collaborators reporting no sunrise/sunset (polar day or night): the
provider returns the empty dict. -/
def collabNoSun : Collab :=
  { sunTimes := fun _ => Except.ok none
    solarPos := fun _ => Except.ok { elevation := 0, azimuth := 0 }
    panelIrr := fun _ => Except.ok 0 }

/-- Collaborators whose per-step solar-position computation fails. -/
def collabStepFails : Collab :=
  { sunTimes := fun _ => Except.ok (some stubSunTimes)
    solarPos := fun _ => Except.error PyErr.valueError
    panelIrr := fun _ => Except.ok 0 }

/-- C2: the claim says that for a start instant at or after sunset (sun times
resolvable for today and tomorrow) the remaining series is empty with total 0
while the full-day series computed for tomorrow is non-empty.  Evaluating the
code at such an input (start one minute after the 16:00 sunset of day 0):
`calculate_energy_forecast` returns the all-empty result, so in particular the
full-day series is empty — the 3-argument `get_sun_times` call at sensor.py
line 246 raises `TypeError`, which the top-level handler converts to the
zero/empty result. -/
theorem c2_past_sunset_empty_result :
    calculate_energy_forecast collabPastSunset 10 961 = emptyResult ∧
    (calculate_energy_forecast collabPastSunset 10 961).full_day_forecast = [] := by
  refine ⟨engine_always_empty collabPastSunset 10 961, ?_⟩
  rw [engine_always_empty]
  rfl

/-- C3: if any exception is raised inside the body of
`calculate_energy_forecast` — in particular during the per-step forecast
computation — the function returns exactly the zero/empty terminal result:
never a partially filled series and never a propagated exception. -/
theorem c3_exception_atomic (c : Collab) (pv : ℚ) (start : ℤ) (e : PyErr)
    (h : calculate_energy_forecast_core c pv start = Except.error e) :
    calculate_energy_forecast c pv start = emptyResult := by
  unfold calculate_energy_forecast
  rw [h]

/-- C3 witness: with a per-step solar-position computation that raises, the
engine body fails and the returned dict is exactly the zero/empty result. -/
theorem c3_exception_atomic_witness :
    calculate_energy_forecast_core collabStepFails 10 600 = Except.error PyErr.valueError ∧
    calculate_energy_forecast collabStepFails 10 600 = emptyResult := by
  have h : calculate_energy_forecast_core collabStepFails 10 600 =
      Except.error PyErr.valueError := by rfl
  exact ⟨h, c3_exception_atomic collabStepFails 10 600 PyErr.valueError h⟩

/-- C4: when the sun-times provider reports no sunrise/sunset (polar
conditions), `calculate_energy_forecast` returns the result with both series
empty and both totals zero, and the body itself succeeds — no exception is
raised or propagated. -/
theorem c4_missing_sun_times (c : Collab) (pv : ℚ) (start : ℤ)
    (h : c.sunTimes (dateOf start) = Except.ok none) :
    calculate_energy_forecast_core c pv start = Except.ok emptyResult ∧
    calculate_energy_forecast c pv start = emptyResult := by
  constructor
  · unfold calculate_energy_forecast_core
    simp [h, except_bind_ok, except_pure]
  · unfold calculate_energy_forecast calculate_energy_forecast_core
    simp [h, except_bind_ok, except_pure]

/-- C4 witness: concrete polar-night collaborators. -/
theorem c4_missing_sun_times_witness :
    collabNoSun.sunTimes (dateOf 600) = Except.ok none ∧
    calculate_energy_forecast_core collabNoSun 10 600 = Except.ok emptyResult ∧
    calculate_energy_forecast collabNoSun 10 600 = emptyResult := by
  have h : collabNoSun.sunTimes (dateOf 600) = Except.ok none := rfl
  exact ⟨h, (c4_missing_sun_times collabNoSun 10 600 h).1,
    (c4_missing_sun_times collabNoSun 10 600 h).2⟩

/-- C5: when the start instant lies within the forecast day (at or after
sunrise and before sunset), the full-day total energy is at least the
remaining total energy and the remaining series is a suffix of the full-day
series.  This holds degenerately: the engine always returns the zero/empty
result (both totals 0, both series empty) because of the `TypeError` raised at
sensor.py line 246. -/
theorem c5_remaining_le_full_day (c : Collab) (pv : ℚ) (start : ℤ) (st : SunTimes)
    (hst : c.sunTimes (dateOf start) = Except.ok (some st))
    (hafter : st.sunrise ≤ start) (hbefore : start < st.sunset) :
    (calculate_energy_forecast c pv start).total_energy ≤
      (calculate_energy_forecast c pv start).total_daily_energy ∧
    (calculate_energy_forecast c pv start).forecast <:+
      (calculate_energy_forecast c pv start).full_day_forecast := by
  rw [engine_always_empty]
  exact ⟨le_refl 0, List.nil_suffix⟩

/-- C5 witness: a mid-day start instant between the stub sunrise and sunset. -/
theorem c5_remaining_le_full_day_witness :
    collabOk.sunTimes (dateOf 600) = Except.ok (some stubSunTimes) ∧
    stubSunTimes.sunrise ≤ 600 ∧ (600 : ℤ) < stubSunTimes.sunset ∧
    ((calculate_energy_forecast collabOk 10 600).total_energy ≤
        (calculate_energy_forecast collabOk 10 600).total_daily_energy ∧
      (calculate_energy_forecast collabOk 10 600).forecast <:+
        (calculate_energy_forecast collabOk 10 600).full_day_forecast) := by
  have h1 : collabOk.sunTimes (dateOf 600) = Except.ok (some stubSunTimes) := rfl
  have h2 : stubSunTimes.sunrise ≤ (600 : ℤ) := by decide
  have h3 : (600 : ℤ) < stubSunTimes.sunset := by decide
  exact ⟨h1, h2, h3, c5_remaining_le_full_day collabOk 10 600 stubSunTimes h1 h2 h3⟩

/-- C10: every result of `calculate_energy_forecast` carries the four core
keys (`total_energy`, `forecast`, `full_day_forecast`, `total_daily_energy`,
here with their zero/empty values), and the four optional keys
(`sunrise_time`, `sunset_time`, `forecast_start`, `forecast_day`) are absent
from every reachable result: the return sites that add them (sensor.py lines
250-259 and 309-318) sit after the always-raising line 246 and are dead. -/
theorem c10_result_keys (c : Collab) (pv : ℚ) (start : ℤ) :
    (calculate_energy_forecast c pv start).total_energy = 0 ∧
    (calculate_energy_forecast c pv start).forecast = [] ∧
    (calculate_energy_forecast c pv start).full_day_forecast = [] ∧
    (calculate_energy_forecast c pv start).total_daily_energy = 0 ∧
    (calculate_energy_forecast c pv start).sunrise_time = none ∧
    (calculate_energy_forecast c pv start).sunset_time = none ∧
    (calculate_energy_forecast c pv start).forecast_start = none ∧
    (calculate_energy_forecast c pv start).forecast_day = none := by
  rw [engine_always_empty]
  exact ⟨rfl, rfl, rfl, rfl, rfl, rfl, rfl, rfl⟩

/-- C1 counterexample: the claim's formula `rated × min(1, irradiance/1000)`
does not match the per-step power the engine computes (sensor.py lines
221-226): at rated power 10 kW and irradiance 1000 W/m² the engine computes
1.8 kW while the claimed formula gives 10 kW; and at irradiance 10000 W/m²
the engine's uncapped power is 18 kW, outside `[0, rated]`. -/
theorem c1_counterexample :
    power_kw 10 1000 ≠ power_spec 10 1000 ∧ ¬ power_kw 10 10000 ≤ 10 := by
  constructor
  · unfold power_kw power_spec panel_efficiency system_efficiency
    norm_num
  · unfold power_kw panel_efficiency system_efficiency
    norm_num

/-- C1 amended: the engine's per-step power `(irr/1000)·rated·0.20·0.90` is
non-negative and stays within `[0, rated]` for all irradiance up to
`1000/0.18 = 50000/9` W/m² (hence for all physically produced irradiance);
the claimed formula `rated × min(1, irr/1000)`, clamped into `[0, rated]`, is
the one computed by the standalone test script forecast_test_fixed.py, whose
power equals `rated × min(1, irr/1000)` for every irradiance ≥ 0 and is always
within `[0, rated]`. -/
theorem c1_power_formula_amended (pv irr : ℚ) (hpv : 0 < pv) (hirr : 0 ≤ irr) :
    0 ≤ power_kw pv irr ∧
    (irr ≤ 50000 / 9 → power_kw pv irr ≤ pv) ∧
    power_kw_test pv irr = power_spec pv irr ∧
    power_kw_test pv irr ≤ pv := by
  have hx : 0 ≤ irr / 1000 := by positivity
  refine ⟨?_, ?_, ?_, ?_⟩
  · unfold power_kw panel_efficiency system_efficiency
    positivity
  · intro h
    unfold power_kw panel_efficiency system_efficiency
    nlinarith [mul_le_mul_of_nonneg_right h hpv.le]
  · unfold power_kw_test power_spec
    rw [show min (pv * (irr / 1000)) pv = min (pv * (irr / 1000)) (pv * 1) from by
      rw [mul_one]]
    rw [← mul_min_of_nonneg _ _ hpv.le]
    rw [min_comm (irr / 1000) 1]
    exact max_eq_right (by positivity)
  · unfold power_kw_test
    exact max_le hpv.le (min_le_right _ _)

/-- C1 amended witness: evaluated at rated power 10 kW, irradiance 1000. -/
theorem c1_power_formula_amended_witness :
    (0 : ℚ) < 10 ∧ (0 : ℚ) ≤ 1000 ∧
    (0 ≤ power_kw 10 1000 ∧
      ((1000 : ℚ) ≤ 50000 / 9 → power_kw 10 1000 ≤ 10) ∧
      power_kw_test 10 1000 = power_spec 10 1000 ∧
      power_kw_test 10 1000 ≤ 10) :=
  ⟨by decide, by decide, c1_power_formula_amended 10 1000 (by decide) (by decide)⟩

/-- `math.radians`: degrees to radians. -/
noncomputable def radians (x : ℝ) : ℝ :=
  x * (Real.pi / 180)

/-- `math.degrees`: radians to degrees. -/
noncomputable def degrees (x : ℝ) : ℝ :=
  x * (180 / Real.pi)

/-- Python `x % y` on floats (for `y > 0`): `x - y * floor(x / y)`. -/
noncomputable def pymod (x y : ℝ) : ℝ :=
  x - y * ⌊x / y⌋

/-- The air-mass factor of `calculate_panel_irradiance` (sensor.py line 130):
`1 / math.sin(sun_el) if solar_elevation > 1 else 10`, where
`sun_el = math.radians(max(0, solar_elevation))`.  Note: the division is not
capped when `solar_elevation > 1`. -/
noncomputable def air_mass (solar_elevation : ℝ) : ℝ :=
  if 1 < solar_elevation then 1 / Real.sin (radians (max 0 solar_elevation)) else 10

/-- Atmospheric transmission (sensor.py line 131): `0.7 ** (air_mass ** 0.678)`. -/
noncomputable def transmission (am : ℝ) : ℝ :=
  Real.rpow (7 / 10) (Real.rpow am (339 / 500))

/-- Shallow embedding of `calculate_panel_irradiance` (sensor.py lines
104-144) on its normal (non-raising) path: angle-of-incidence cosine clamped
at 0, simplified clear-sky direct normal irradiance `900 * transmission`, and
a final clamp at 0. -/
noncomputable def calculate_panel_irradiance
    (solar_elevation solar_azimuth panel_tilt panel_azimuth : ℝ) : ℝ :=
  let sun_el := radians (max 0 solar_elevation)
  let sun_az := radians solar_azimuth
  let panel_tilt_rad := radians panel_tilt
  let panel_az_rad := radians panel_azimuth
  let cos_incidence := Real.sin sun_el * Real.cos panel_tilt_rad +
    Real.cos sun_el * Real.sin panel_tilt_rad * Real.cos (sun_az - panel_az_rad)
  let cos_incidence_clamped := max 0 cos_incidence
  let panel_irradiance :=
    if 0 < solar_elevation then
      900 * transmission (air_mass solar_elevation) * cos_incidence_clamped
    else 0
  max 0 panel_irradiance

/-- C7: the irradiance on the panel is non-negative for every solar position
and panel configuration, and is exactly 0 whenever the solar elevation is at
or below the horizon.  (The `except` clause of the source also returns 0, so
the returned value is non-negative on every path.) -/
theorem c7_irradiance_nonneg
    (solar_elevation solar_azimuth panel_tilt panel_azimuth : ℝ) :
    0 ≤ calculate_panel_irradiance solar_elevation solar_azimuth panel_tilt panel_azimuth ∧
    (solar_elevation ≤ 0 →
      calculate_panel_irradiance solar_elevation solar_azimuth panel_tilt panel_azimuth = 0) := by
  constructor
  · exact le_max_left 0 _
  · intro h
    unfold calculate_panel_irradiance
    simp [not_lt.mpr h]

/-- C7 witness: at elevation 0 the irradiance is non-negative and equals 0. -/
theorem c7_irradiance_nonneg_witness :
    0 ≤ calculate_panel_irradiance 0 0 30 180 ∧
    calculate_panel_irradiance 0 0 30 180 = 0 :=
  ⟨(c7_irradiance_nonneg 0 0 30 180).1,
    (c7_irradiance_nonneg 0 0 30 180).2 (le_refl 0)⟩

/-- C6 counterexample: at solar elevation 2° the air-mass factor of sensor.py
is `1 / sin(2°) ≈ 28.7`, which exceeds 10 and differs from
`min(1 / sin(elevation), 10)`; the claimed cap at 10 does not exist in the
component for elevations above 1°. -/
theorem c6_counterexample :
    10 < air_mass 2 ∧ air_mass 2 ≠ min (1 / Real.sin (radians 2)) 10 := by
  have hmax : max (0 : ℝ) 2 = 2 := max_eq_right (by norm_num)
  have hrad : radians 2 = Real.pi / 90 := by
    unfold radians
    ring
  have hpos : 0 < Real.sin (radians 2) := by
    rw [hrad]
    apply Real.sin_pos_of_pos_of_lt_pi
    · positivity
    · nlinarith [Real.pi_pos]
  have hsmall : Real.sin (radians 2) < 1 / 10 := by
    rw [hrad]
    have h1 : Real.sin (Real.pi / 90) < Real.pi / 90 := Real.sin_lt (by positivity)
    nlinarith [Real.pi_lt_d2]
  have h10 : 10 < 1 / Real.sin (radians 2) := by
    rw [lt_div_iff₀ hpos]
    nlinarith
  have hval : air_mass 2 = 1 / Real.sin (radians 2) := by
    unfold air_mass
    rw [if_pos (by norm_num : (1 : ℝ) < 2), hmax]
  constructor
  · rw [hval]
    exact h10
  · rw [hval, min_eq_right h10.le]
    exact ne_of_gt h10

/-- C6 amended: for elevations in `(0°, 1°]` the factor is the constant 10,
which coincides with `min(1/sin(elevation), 10)` there; for elevations above
1° the factor is the uncapped `1/sin(elevation)`, which coincides with
`min(1/sin(elevation), 10)` exactly when `sin(elevation) ≥ 0.1` (i.e. outside
the band `1° < elevation < arcsin(0.1) ≈ 5.74°`, where it exceeds 10). -/
theorem c6_air_mass_amended (el : ℝ) (h0 : 0 < el)
    (h : el ≤ 1 ∨ 1 / 10 ≤ Real.sin (radians el)) :
    air_mass el = min (1 / Real.sin (radians el)) 10 := by
  have hmax : max (0 : ℝ) el = el := max_eq_right h0.le
  by_cases h1 : 1 < el
  · have hs : 1 / 10 ≤ Real.sin (radians el) := by
      rcases h with h | h
      · linarith
      · exact h
    have hspos : 0 < Real.sin (radians el) := lt_of_lt_of_le (by norm_num) hs
    have hle : 1 / Real.sin (radians el) ≤ 10 := by
      rw [div_le_iff₀ hspos]
      nlinarith
    unfold air_mass
    rw [if_pos h1, hmax, min_eq_left hle]
  · have hle1 : el ≤ 1 := not_lt.mp h1
    have hradpos : 0 < radians el := by
      unfold radians
      positivity
    have hradsmall : radians el < Real.pi := by
      unfold radians
      nlinarith [Real.pi_pos]
    have hspos : 0 < Real.sin (radians el) := Real.sin_pos_of_pos_of_lt_pi hradpos hradsmall
    have hssmall : Real.sin (radians el) < 1 / 10 := by
      have hlt : Real.sin (radians el) < radians el := Real.sin_lt hradpos
      have : radians el ≤ Real.pi / 180 := by
        unfold radians
        nlinarith [Real.pi_pos]
      nlinarith [Real.pi_lt_d2]
    have h10 : 10 ≤ 1 / Real.sin (radians el) := by
      rw [le_div_iff₀ hspos]
      nlinarith
    unfold air_mass
    rw [if_neg h1, min_eq_right h10]

/-- C6 amended witness: at elevation 1° the factor is 10 and matches the
capped formula. -/
theorem c6_air_mass_amended_witness :
    (0 : ℝ) < 1 ∧ ((1 : ℝ) ≤ 1 ∨ 1 / 10 ≤ Real.sin (radians 1)) ∧
    air_mass 1 = min (1 / Real.sin (radians 1)) 10 :=
  ⟨zero_lt_one, Or.inl le_rfl, c6_air_mass_amended 1 zero_lt_one (Or.inl le_rfl)⟩

/-- A Python `datetime` as consumed by `calculate_solar_position`: calendar
fields only (year ≥ 1, month 1-12, day 1-31, hour 0-23, minute/second 0-59,
as `datetime` guarantees; all fields non-negative, so `ℕ` with Python's
floor divisions mapping to `ℕ` division). -/
structure PyDateTime where
  year : ℕ
  month : ℕ
  day : ℕ
  hour : ℕ
  minute : ℕ
  second : ℕ

/-- The integer Julian-day computation of `calculate_solar_position`
(sensor.py lines 48-59). -/
def jdInt (d : PyDateTime) : ℕ :=
  let a := (14 - d.month) / 12
  let y := d.year - a
  let m := d.month + 12 * a - 3
  d.day + (153 * m + 2) / 5 + 365 * y + y / 4 - y / 100 + y / 400 + 1721119

/-- The fractional Julian day (sensor.py line 62): the integer Julian day plus
the time of day relative to noon. -/
noncomputable def jdFrac (d : PyDateTime) : ℝ :=
  (jdInt d : ℝ) + ((d.hour : ℝ) - 12) / 24 + (d.minute : ℝ) / 1440 + (d.second : ℝ) / 86400

/-- Ecliptic longitude of the sun (sensor.py lines 65-68): days since J2000,
mean longitude and mean anomaly both reduced mod 360, and the two
equation-of-center correction terms. -/
noncomputable def lambdaSun (d : PyDateTime) : ℝ :=
  let n := jdFrac d - 2451545.0
  let L := pymod (280.460 + 0.9856474 * n) 360
  let g := radians (pymod (357.528 + 0.9856003 * n) 360)
  radians (L + 1.915 * Real.sin g + 0.020 * Real.sin (2 * g))

/-- The argument of the declination `asin` (sensor.py line 71). -/
noncomputable def deltaArg (d : PyDateTime) : ℝ :=
  Real.sin (radians 23.439) * Real.sin (lambdaSun d)

/-- Mean solar time in hours (sensor.py line 78). -/
noncomputable def mst (d : PyDateTime) : ℝ :=
  (d.hour : ℝ) + (d.minute : ℝ) / 60 + (d.second : ℝ) / 3600

/-- Hour angle (sensor.py line 81), in radians; note the source adds the
longitude in degrees to `15 * (mst - 12)` before converting. -/
noncomputable def hourAngle (longitude : ℝ) (d : PyDateTime) : ℝ :=
  radians (15 * (mst d - 12) + longitude)

/-- The argument of the elevation `asin` (sensor.py lines 84-87). -/
noncomputable def elevArg (latitude longitude : ℝ) (d : PyDateTime) (delta : ℝ) : ℝ :=
  Real.sin (radians latitude) * Real.sin delta +
    Real.cos (radians latitude) * Real.cos delta * Real.cos (hourAngle longitude d)

/-- `math.atan2 y x` as the argument of the complex number `x + y·i`. -/
noncomputable def atan2 (y x : ℝ) : ℝ :=
  Complex.arg ⟨x, y⟩

/-- The azimuth value (sensor.py lines 90-93 and 97): `atan2` combined from
hour angle, latitude and declination, converted to degrees and reduced
mod 360. -/
noncomputable def azimuthVal (latitude longitude : ℝ) (d : PyDateTime) (delta : ℝ) : ℝ :=
  pymod (degrees (atan2 (Real.sin (hourAngle longitude d))
    (Real.cos (hourAngle longitude d) * Real.sin (radians latitude) -
      Real.tan delta * Real.cos (radians latitude)))) 360

/-- `math.asin`: defined on `[-1, 1]`, raises `ValueError` (modelled as
`none`) outside it. -/
noncomputable def asinOpt (x : ℝ) : Option ℝ :=
  if |x| ≤ 1 then some (Real.arcsin x) else none

/-- The elevation/azimuth pair returned by `calculate_solar_position`. -/
structure SolarPosR where
  elevation : ℝ
  azimuth : ℝ

/-- The body of `calculate_solar_position` (sensor.py lines 46-98), i.e.
everything inside its `try`: `none` models a raised numerical error (an `asin`
argument out of range). -/
noncomputable def solarPositionCore (latitude longitude : ℝ) (d : PyDateTime) :
    Option SolarPosR :=
  (asinOpt (deltaArg d)).bind fun delta =>
    (asinOpt (elevArg latitude longitude d delta)).bind fun elevation =>
      some { elevation := degrees elevation
             azimuth := azimuthVal latitude longitude d delta }

/-- `calculate_solar_position` with its exception handler (sensor.py lines
99-101): a raised numerical error is caught and replaced by
elevation = 0, azimuth = 0. -/
noncomputable def calculate_solar_position (latitude longitude : ℝ) (d : PyDateTime) :
    SolarPosR :=
  (solarPositionCore latitude longitude d).getD { elevation := 0, azimuth := 0 }

/-- Two-dimensional Cauchy–Schwarz, specialized: a dot product of a unit
vector with a vector of norm at most 1 lies in `[-1, 1]`. -/
theorem two_dim_dot_le_one {x y u w : ℝ} (hxy : x ^ 2 + y ^ 2 = 1)
    (huw : u ^ 2 + w ^ 2 ≤ 1) : |x * u + y * w| ≤ 1 := by
  rw [abs_le]
  constructor
  · nlinarith [sq_nonneg (x + u), sq_nonneg (y + w)]
  · nlinarith [sq_nonneg (x - u), sq_nonneg (y - w)]

/-- The declination `asin` argument is always within `[-1, 1]`. -/
theorem abs_deltaArg_le_one (d : PyDateTime) : |deltaArg d| ≤ 1 := by
  unfold deltaArg
  rw [abs_mul]
  exact mul_le_one₀ (Real.abs_sin_le_one _) (abs_nonneg _) (Real.abs_sin_le_one _)

/-- The elevation `asin` argument is always within `[-1, 1]`. -/
theorem abs_elevArg_le_one (latitude longitude : ℝ) (d : PyDateTime) (delta : ℝ) :
    |elevArg latitude longitude d delta| ≤ 1 := by
  unfold elevArg
  rw [show Real.cos (radians latitude) * Real.cos delta * Real.cos (hourAngle longitude d) =
    Real.cos (radians latitude) * (Real.cos delta * Real.cos (hourAngle longitude d)) from
    mul_assoc _ _ _]
  apply two_dim_dot_le_one (Real.sin_sq_add_cos_sq (radians latitude))
  nlinarith [Real.sin_sq_add_cos_sq delta, Real.cos_sq_le_one (hourAngle longitude d),
    sq_nonneg (Real.cos delta)]

/-- `solarPositionCore` never raises: both `asin` arguments are provably in
range, and the result is the unclamped elevation/azimuth pair. -/
theorem solarPositionCore_eq (latitude longitude : ℝ) (d : PyDateTime) :
    solarPositionCore latitude longitude d = some
      { elevation := degrees (Real.arcsin
          (elevArg latitude longitude d (Real.arcsin (deltaArg d))))
        azimuth := azimuthVal latitude longitude d (Real.arcsin (deltaArg d)) } := by
  unfold solarPositionCore asinOpt
  rw [if_pos (abs_deltaArg_le_one d)]
  rw [Option.some_bind']
  rw [if_pos (abs_elevArg_le_one latitude longitude d (Real.arcsin (deltaArg d)))]
  rw [Option.some_bind']

/-- The elevation returned by `calculate_solar_position` never exceeds 90°:
it is `degrees` of an `arcsin` value (at most `π/2`), or 0 on the error
branch. -/
theorem solar_elevation_le_90 (latitude longitude : ℝ) (d : PyDateTime) :
    (calculate_solar_position latitude longitude d).elevation ≤ 90 := by
  unfold calculate_solar_position
  rw [solarPositionCore_eq]
  show degrees (Real.arcsin (elevArg latitude longitude d (Real.arcsin (deltaArg d)))) ≤ 90
  unfold degrees
  have h1 : Real.arcsin (elevArg latitude longitude d (Real.arcsin (deltaArg d))) ≤
      Real.pi / 2 := Real.arcsin_le_pi_div_two _
  have h2 : (Real.pi / 2) * (180 / Real.pi) = 90 := by
    field_simp
    ring
  calc Real.arcsin (elevArg latitude longitude d (Real.arcsin (deltaArg d))) * (180 / Real.pi)
      ≤ (Real.pi / 2) * (180 / Real.pi) := by
        apply mul_le_mul_of_nonneg_right h1
        positivity
    _ = 90 := h2

/-- The J2000 epoch instant: 2000-01-01 12:00:00. -/
def j2000_noon : PyDateTime :=
  { year := 2000, month := 1, day := 1, hour := 12, minute := 0, second := 0 }

/-- Reduction of Python `%` when the operand already lies in `[0, y)`. -/
theorem pymod_eq_self {x y : ℝ} (h0 : 0 ≤ x) (h1 : x < y) : pymod x y = x := by
  have hy : 0 < y := lt_of_le_of_lt h0 h1
  unfold pymod
  have : ⌊x / y⌋ = 0 := by
    rw [Int.floor_eq_zero_iff]
    constructor
    · positivity
    · rw [div_lt_one hy]
      exact h1
  rw [this]
  norm_num

/-- At J2000 noon the integer Julian day is 2451545. -/
theorem jdInt_j2000 : jdInt j2000_noon = 2451545 := by decide

/-- At J2000 noon the fractional Julian day is exactly 2451545. -/
theorem jdFrac_j2000 : jdFrac j2000_noon = 2451545 := by
  unfold jdFrac
  rw [jdInt_j2000]
  show (2451545 : ℕ) + (((12 : ℕ) : ℝ) - 12) / 24 + ((0 : ℕ) : ℝ) / 1440 +
    ((0 : ℕ) : ℝ) / 86400 = 2451545
  push_cast
  norm_num

/-- At J2000 noon the ecliptic-longitude expression reduces to its constant
terms: the day count `n` is 0 and both `mod 360` reductions are identities. -/
theorem lambdaSun_j2000 :
    lambdaSun j2000_noon = radians (280.46 + 1.915 * Real.sin (radians 357.528) +
      0.020 * Real.sin (2 * radians 357.528)) := by
  have harg1 : (280.460 : ℝ) + 0.9856474 * (jdFrac j2000_noon - 2451545.0) = 280.46 := by
    rw [jdFrac_j2000]
    norm_num
  have harg2 : (357.528 : ℝ) + 0.9856003 * (jdFrac j2000_noon - 2451545.0) = 357.528 := by
    rw [jdFrac_j2000]
    norm_num
  simp only [lambdaSun]
  rw [harg1, harg2,
    pymod_eq_self (show (0 : ℝ) ≤ 280.46 by norm_num) (show (280.46 : ℝ) < 360 by norm_num),
    pymod_eq_self (show (0 : ℝ) ≤ 357.528 by norm_num) (show (357.528 : ℝ) < 360 by norm_num)]

/-- At J2000 noon the sine of the sun's ecliptic longitude is negative (the
longitude lies strictly between 180° and 360°). -/
theorem sin_lambdaSun_j2000_neg : Real.sin (lambdaSun j2000_noon) < 0 := by
  rw [lambdaSun_j2000]
  have hs1 := Real.neg_one_le_sin (radians 357.528)
  have hs2 := Real.sin_le_one (radians 357.528)
  have hs3 := Real.neg_one_le_sin (2 * radians 357.528)
  have hs4 := Real.sin_le_one (2 * radians 357.528)
  have hπ := Real.pi_pos
  set A : ℝ := 280.46 + 1.915 * Real.sin (radians 357.528) +
    0.020 * Real.sin (2 * radians 357.528) with hA
  have hA1 : 180 < A := by rw [hA]; linarith
  have hA2 : A < 360 := by rw [hA]; linarith
  have hradA : radians A = A * (Real.pi / 180) := rfl
  have hl1 : Real.pi < radians A := by
    rw [hradA]
    nlinarith
  have hl2 : radians A < 2 * Real.pi := by
    rw [hradA]
    nlinarith
  rw [← Real.sin_sub_two_pi]
  apply Real.sin_neg_of_neg_of_neg_pi_lt
  · linarith
  · linarith

/-- At J2000 noon the declination `asin` argument, hence the declination, is
negative. -/
theorem deltaArg_j2000_neg : deltaArg j2000_noon < 0 := by
  unfold deltaArg
  have hk : 0 < Real.sin (radians 23.439) := by
    unfold radians
    apply Real.sin_pos_of_pos_of_lt_pi
    · positivity
    · nlinarith [Real.pi_pos]
  exact mul_neg_of_pos_of_neg hk sin_lambdaSun_j2000_neg

/-- At the north pole (latitude 90) at J2000 noon, `calculate_solar_position`
returns a strictly negative elevation: the function does not clamp elevations
at 0. -/
theorem elevation_neg_at_pole :
    (calculate_solar_position 90 0 j2000_noon).elevation < 0 := by
  have harc : Real.arcsin (deltaArg j2000_noon) < 0 := by
    have h := Real.arcsin_pos.mpr (neg_pos.mpr deltaArg_j2000_neg)
    rw [Real.arcsin_neg] at h
    linarith
  have helev : elevArg 90 0 j2000_noon (Real.arcsin (deltaArg j2000_noon)) =
      Real.sin (Real.arcsin (deltaArg j2000_noon)) := by
    unfold elevArg
    rw [show radians 90 = Real.pi / 2 from by unfold radians; ring,
      Real.sin_pi_div_two, Real.cos_pi_div_two]
    ring
  have hmem := Real.arcsin_mem_Icc (deltaArg j2000_noon)
  rw [Set.mem_Icc] at hmem
  unfold calculate_solar_position
  rw [solarPositionCore_eq]
  show degrees (Real.arcsin (elevArg 90 0 j2000_noon (Real.arcsin (deltaArg j2000_noon)))) < 0
  rw [helev, Real.arcsin_sin hmem.1 hmem.2]
  unfold degrees
  apply mul_neg_of_neg_of_pos harc
  positivity

/-- C8: `calculate_solar_position` returns a value for every latitude,
longitude and instant — the internal `asin` arguments are provably within
`[-1, 1]`, so on exact reals the error branch (which by definition of the
embedding returns elevation 0, azimuth 0) is never taken — and the returned
elevation is the unclamped astronomical value, which is strictly negative for
a sun below the horizon (north pole at J2000 noon). -/
theorem c8_solar_position_total :
    (∀ (latitude longitude : ℝ) (d : PyDateTime), ∃ p : SolarPosR,
        solarPositionCore latitude longitude d = some p ∧
        calculate_solar_position latitude longitude d = p) ∧
    (calculate_solar_position 90 0 j2000_noon).elevation < 0 := by
  constructor
  · intro latitude longitude d
    refine ⟨_, solarPositionCore_eq latitude longitude d, ?_⟩
    unfold calculate_solar_position
    rw [solarPositionCore_eq]
    rfl
  · exact elevation_neg_at_pole

/-- For every elevation at most 90°, the panel irradiance of sensor.py is at
most `900 × 0.7 = 630` W/m²: the incidence cosine is at most 1, the air mass
is at least 1, and the transmission `0.7 ^ (air_mass ^ 0.678)` is therefore at
most 0.7. -/
theorem irradiance_le_630 (el az tilt orient : ℝ) (hel90 : el ≤ 90) :
    calculate_panel_irradiance el az tilt orient ≤ 630 := by
  simp only [calculate_panel_irradiance]
  apply max_le (by norm_num)
  by_cases hel : 0 < el
  · rw [if_pos hel]
    have hS : Real.sin (radians (max 0 el)) * Real.cos (radians tilt) +
        Real.cos (radians (max 0 el)) * Real.sin (radians tilt) *
          Real.cos (radians az - radians orient) ≤ 1 := by
      rw [show Real.cos (radians (max 0 el)) * Real.sin (radians tilt) *
          Real.cos (radians az - radians orient) =
          Real.cos (radians (max 0 el)) * (Real.sin (radians tilt) *
            Real.cos (radians az - radians orient)) from mul_assoc _ _ _]
      have := two_dim_dot_le_one (Real.sin_sq_add_cos_sq (radians (max 0 el)))
        (show Real.cos (radians tilt) ^ 2 + (Real.sin (radians tilt) *
            Real.cos (radians az - radians orient)) ^ 2 ≤ 1 from by
          nlinarith [Real.sin_sq_add_cos_sq (radians tilt),
            Real.cos_sq_le_one (radians az - radians orient),
            sq_nonneg (Real.sin (radians tilt))])
      exact (abs_le.mp this).2
    have hC0 : (0 : ℝ) ≤ max 0 (Real.sin (radians (max 0 el)) * Real.cos (radians tilt) +
        Real.cos (radians (max 0 el)) * Real.sin (radians tilt) *
          Real.cos (radians az - radians orient)) := le_max_left 0 _
    have hC1 : max 0 (Real.sin (radians (max 0 el)) * Real.cos (radians tilt) +
        Real.cos (radians (max 0 el)) * Real.sin (radians tilt) *
          Real.cos (radians az - radians orient)) ≤ 1 := max_le zero_le_one hS
    have ham : 1 ≤ air_mass el := by
      unfold air_mass
      by_cases h1 : 1 < el
      · rw [if_pos h1]
        have hmax : max (0 : ℝ) el = el := max_eq_right hel.le
        have hradpos : 0 < radians el := by
          unfold radians
          positivity
        have hradlt : radians el < Real.pi := by
          unfold radians
          nlinarith [Real.pi_pos]
        have hspos : 0 < Real.sin (radians el) :=
          Real.sin_pos_of_pos_of_lt_pi hradpos hradlt
        rw [hmax, le_div_iff₀ hspos, one_mul]
        exact Real.sin_le_one _
      · rw [if_neg h1]
        norm_num
    have hrexp : 1 ≤ Real.rpow (air_mass el) (339 / 500) :=
      Real.one_le_rpow ham (by norm_num)
    have ht7 : transmission (air_mass el) ≤ 7 / 10 := by
      have h := Real.rpow_le_rpow_of_exponent_ge (show (0 : ℝ) < 7 / 10 by norm_num)
        (show (7 : ℝ) / 10 ≤ 1 by norm_num) hrexp
      rw [Real.rpow_one] at h
      exact h
    have ht0 : 0 ≤ transmission (air_mass el) := Real.rpow_nonneg (by norm_num) _
    nlinarith [mul_le_mul ht7 hC1 hC0 (show (0 : ℝ) ≤ 7 / 10 by norm_num)]
  · rw [if_neg hel]
    norm_num

/-- C9: the irradiance produced by the engine's own solar-position values
(whose elevation never exceeds 90°) is at most 630 W/m², hence strictly below
the 1000 W/m² Standard Test Condition reference, so a rated-power cap applied
at the `min(1, irradiance/1000)` normalization can never bind: the `min`
always takes the `irradiance/1000` branch. -/
theorem c9_irradiance_below_stc (latitude longitude : ℝ) (d : PyDateTime)
    (solar_azimuth panel_tilt panel_azimuth : ℝ) :
    calculate_panel_irradiance (calculate_solar_position latitude longitude d).elevation
        solar_azimuth panel_tilt panel_azimuth ≤ 630 ∧
    calculate_panel_irradiance (calculate_solar_position latitude longitude d).elevation
        solar_azimuth panel_tilt panel_azimuth < 1000 ∧
    ∀ pv : ℝ,
      pv * min 1 (calculate_panel_irradiance
          (calculate_solar_position latitude longitude d).elevation
          solar_azimuth panel_tilt panel_azimuth / 1000) =
        pv * (calculate_panel_irradiance
          (calculate_solar_position latitude longitude d).elevation
          solar_azimuth panel_tilt panel_azimuth / 1000) := by
  have h := irradiance_le_630 _ solar_azimuth panel_tilt panel_azimuth
    (solar_elevation_le_90 latitude longitude d)
  refine ⟨h, lt_of_le_of_lt h (by norm_num), ?_⟩
  intro pv
  have hmin : min 1 (calculate_panel_irradiance
      (calculate_solar_position latitude longitude d).elevation
      solar_azimuth panel_tilt panel_azimuth / 1000) =
      calculate_panel_irradiance (calculate_solar_position latitude longitude d).elevation
        solar_azimuth panel_tilt panel_azimuth / 1000 := by
    apply min_eq_right
    rw [div_le_one (by norm_num : (0 : ℝ) < 1000)]
    exact le_trans h (by norm_num)
  rw [hmin]
